import Mathlib

/-!
Verification of the Moonlit Tales local persistence and service layer.

The definitions below are a shallow embedding of the TypeScript sources:
* `src/src/types/index.ts` — the data model (Story, Character, settings types);
* `src/src/services/storage.ts` — the AsyncStorage-backed persistence store;
* `src/src/services/openai.ts` — the story-generation client and its
  TITLE:/STORY: response parsing;
* `src/src/services/gemini.ts` — the character-image client with its
  in-memory cache;
* the ElevenLabs narration service and the ambient-music service
  (unnamed source parts 003/004 and 006).

AsyncStorage is modelled as a record of optional typed values, one field per
namespaced key; JSON serialisation round-trips, so a stored record is kept as
its typed Lean value.
-/

namespace Moonlit

/-! ## Data model (src/src/types/index.ts) -/

inductive StoryMode
  | romance
  | quest
  | sleepy
  | custom
  | gossip
deriving DecidableEq, Repr

inductive StoryLength
  | short
  | medium
  | long
deriving DecidableEq, Repr

structure StorySettings where
  mode : StoryMode
  length : StoryLength
  toneSoftness : ℚ
  lullabyEnding : Bool
  customTheme : Option String
deriving DecidableEq, Repr

/-- `Story` from `types/index.ts`.  `createdAt` is an ISO string in the
serialised form; `getStories` converts it to a `Date` and `JSON.stringify`
converts it back, a round trip we keep as the string itself. -/
structure Story where
  id : String
  title : String
  content : String
  mode : StoryMode
  createdAt : String
  audioUrl : Option String
  isFavorite : Bool
  settings : StorySettings
deriving DecidableEq, Repr

inductive CharacterType
  | royal
  | chaotic
  | custom
deriving DecidableEq, Repr

structure ThemeSong where
  description : String
  audioUrl : Option String
deriving DecidableEq, Repr

structure Character where
  id : String
  name : String
  title : String
  description : String
  emoji : String
  type : CharacterType
  personality : Option String
  themeSong : Option ThemeSong
  isCustom : Option Bool
  imagePrompt : Option String
deriving DecidableEq, Repr

inductive VoiceType
  | prince
  | narrator
deriving DecidableEq, Repr

structure VoiceSettings where
  stability : ℚ
  similarityBoost : ℚ
  style : ℚ
  speed : ℚ
deriving DecidableEq, Repr

inductive BackgroundTheme
  | dreamy
  | lofi
  | starry
  | aurora
  | misty
deriving DecidableEq, Repr

/-! ## Persistence store (src/src/services/storage.ts) -/

structure APIKeys where
  openai : String
  elevenlabs : String
  gemini : String
deriving DecidableEq, Repr

structure AppSettings where
  backgroundMusicVolume : ℚ
  narrationVolume : ℚ
  defaultVoice : VoiceType
  defaultLength : StoryLength
  autoPlay : Bool
  hapticFeedback : Bool
  voiceSettings : VoiceSettings
  backgroundTheme : BackgroundTheme
deriving DecidableEq, Repr

/-- `Partial<AppSettings>` as passed to `saveSettings`: each top-level field
optionally present.  The nested voice-settings record is replaced as a whole
when present (the source merge is shallow at the top level). -/
structure SettingsUpdate where
  backgroundMusicVolume : Option ℚ := none
  narrationVolume : Option ℚ := none
  defaultVoice : Option VoiceType := none
  defaultLength : Option StoryLength := none
  autoPlay : Option Bool := none
  hapticFeedback : Option Bool := none
  voiceSettings : Option VoiceSettings := none
  backgroundTheme : Option BackgroundTheme := none
deriving DecidableEq, Repr

def DEFAULT_VOICE_SETTINGS : VoiceSettings :=
  { stability := 3/4
    similarityBoost := 3/4
    style := 1/2
    speed := 1 }

def DEFAULT_SETTINGS : AppSettings :=
  { backgroundMusicVolume := 3/10
    narrationVolume := 4/5
    defaultVoice := .narrator
    defaultLength := .medium
    autoPlay := true
    hapticFeedback := true
    voiceSettings := DEFAULT_VOICE_SETTINGS
    backgroundTheme := .dreamy }

/-- The JS object spread `{ ...base, ...update }` for settings. -/
def mergeSettings (base : AppSettings) (u : SettingsUpdate) : AppSettings :=
  { backgroundMusicVolume := u.backgroundMusicVolume.getD base.backgroundMusicVolume
    narrationVolume := u.narrationVolume.getD base.narrationVolume
    defaultVoice := u.defaultVoice.getD base.defaultVoice
    defaultLength := u.defaultLength.getD base.defaultLength
    autoPlay := u.autoPlay.getD base.autoPlay
    hapticFeedback := u.hapticFeedback.getD base.hapticFeedback
    voiceSettings := u.voiceSettings.getD base.voiceSettings
    backgroundTheme := u.backgroundTheme.getD base.backgroundTheme }

/-- The AsyncStorage contents, one field per `STORAGE_KEYS` entry.  `none`
means the key is absent.  The `FAVORITES` record is never written by any
storage operation; it is kept opaque. -/
structure Store where
  stories : Option (List Story)
  favorites : Option String
  settings : Option AppSettings
  apiKeys : Option APIKeys
  lastMode : Option String
  customCharacters : Option (List Character)
deriving DecidableEq, Repr

def emptyStore : Store :=
  { stories := none
    favorites := none
    settings := none
    apiKeys := none
    lastMode := none
    customCharacters := none }

/-- `getStories`: parse the stored list, or `[]` when the key is absent. -/
def getStories (st : Store) : List Story :=
  st.stories.getD []

/-- `saveStory`: prepend to the existing list and persist the full list. -/
def saveStory (story : Story) (st : Store) : Store :=
  { st with stories := some (story :: getStories st) }

/-- `getStoryById`: first story with the given id, if any. -/
def getStoryById (id : String) (st : Store) : Option Story :=
  (getStories st).find? (fun s => s.id == id)

/-- `Partial<Story>` as passed to `updateStory`. -/
structure StoryUpdate where
  id : Option String := none
  title : Option String := none
  content : Option String := none
  mode : Option StoryMode := none
  createdAt : Option String := none
  audioUrl : Option (Option String) := none
  isFavorite : Option Bool := none
  settings : Option StorySettings := none
deriving DecidableEq, Repr

/-- The JS object spread `{ ...story, ...updates }`. -/
def applyStoryUpdate (s : Story) (u : StoryUpdate) : Story :=
  { id := u.id.getD s.id
    title := u.title.getD s.title
    content := u.content.getD s.content
    mode := u.mode.getD s.mode
    createdAt := u.createdAt.getD s.createdAt
    audioUrl := u.audioUrl.getD s.audioUrl
    isFavorite := u.isFavorite.getD s.isFavorite
    settings := u.settings.getD s.settings }

/-- Replace the first element satisfying `p` by its image under `f`
(the `findIndex`-then-set pattern of `updateStory`, and the
find-then-mutate pattern of `toggleFavorite`). -/
def updateFirst (p : α → Bool) (f : α → α) : List α → List α
  | [] => []
  | x :: xs => if p x then f x :: xs else x :: updateFirst p f xs

/-- `updateStory`: shallow-merge into the first story with the matching id
and persist; no write when the id is absent. -/
def updateStory (id : String) (u : StoryUpdate) (st : Store) : Store :=
  let stories := getStories st
  if stories.any (fun s => s.id == id) then
    let updated := updateFirst (fun s => s.id == id) (fun s => applyStoryUpdate s u) stories
    { st with stories := some updated }
  else
    st

/-- `deleteStory`: persist the list without the matching stories. -/
def deleteStory (id : String) (st : Store) : Store :=
  { st with stories := some ((getStories st).filter (fun s => !(s.id == id))) }

/-- `toggleFavorite`: flip `isFavorite` on the first story with the matching
id, persist, and return the new value; return `false` with no write when the
id is absent. -/
def toggleFavorite (id : String) (st : Store) : Bool × Store :=
  let stories := getStories st
  match stories.find? (fun s => s.id == id) with
  | some story =>
      let updated :=
        updateFirst (fun s => s.id == id) (fun s => { s with isFavorite := !s.isFavorite }) stories
      (!story.isFavorite, { st with stories := some updated })
  | none => (false, st)

/-- `getFavoriteStories`. -/
def getFavoriteStories (st : Store) : List Story :=
  (getStories st).filter (fun s => s.isFavorite)

/-- `saveAPIKeys`: full replace. -/
def saveAPIKeys (keys : APIKeys) (st : Store) : Store :=
  { st with apiKeys := some keys }

/-- `getAPIKeys`: stored record, or all-empty-string keys when absent. -/
def getAPIKeys (st : Store) : APIKeys :=
  st.apiKeys.getD { openai := "", elevenlabs := "", gemini := "" }

/-- `saveLastMode`. -/
def saveLastMode (mode : String) (st : Store) : Store :=
  { st with lastMode := some mode }

/-- `getLastMode`. -/
def getLastMode (st : Store) : Option String :=
  st.lastMode

/-- `getSettings`: `{ ...DEFAULT_SETTINGS, ...stored }`.  Every record the
code ever stores is complete (`saveSettings` always writes the full merged
record), so overlaying it on the defaults yields the stored record itself. -/
def getSettings (st : Store) : AppSettings :=
  st.settings.getD DEFAULT_SETTINGS

/-- `saveSettings`: merge the update over the current settings and persist
the full merged record. -/
def saveSettings (u : SettingsUpdate) (st : Store) : Store :=
  { st with settings := some (mergeSettings (getSettings st) u) }

/-- `getCustomCharacters`. -/
def getCustomCharacters (st : Store) : List Character :=
  st.customCharacters.getD []

/-- `clearAllData`: `AsyncStorage.multiRemove` of the STORIES, FAVORITES,
SETTINGS, LAST_MODE and CUSTOM_CHARACTERS keys.  The API_KEYS key is not in
the removed list. -/
def clearAllData (st : Store) : Store :=
  { st with
    stories := none
    favorites := none
    settings := none
    lastMode := none
    customCharacters := none }

/-- Ids of the stored stories, in stored order. -/
def storyIds (st : Store) : List String :=
  (getStories st).map (fun s => s.id)

/-! ## Story-operation traces (for the id-uniqueness invariant) -/

inductive StoryOp
  | save (story : Story)
  | update (id : String) (u : StoryUpdate)
  | delete (id : String)
  | toggle (id : String)
deriving DecidableEq, Repr

def applyStoryOp (op : StoryOp) (st : Store) : Store :=
  match op with
  | .save story => saveStory story st
  | .update id u => updateStory id u st
  | .delete id => deleteStory id st
  | .toggle id => (toggleFavorite id st).2

def applyStoryOps (ops : List StoryOp) (st : Store) : Store :=
  ops.foldl (fun st op => applyStoryOp op st) st

/-- A trace is safe when every saved story carries an id not already in the
store at the time of the save, and no update rewrites the id field.  This is
the discipline the app follows: ids come from `generateId` and updates only
touch `audioUrl`/`isFavorite`. -/
def safeStoryOps : List StoryOp → Store → Bool
  | [], _ => true
  | op :: ops, st =>
      (match op with
       | .save story => !(storyIds st).contains story.id
       | .update _ u => u.id == none
       | .delete _ => true
       | .toggle _ => true) &&
      safeStoryOps ops (applyStoryOp op st)

/-! ## Remote calls

Every service wraps a single HTTP call in try/catch.  A call is modelled by
its resolved outcome: `ok` carries the successful payload, `fail` carries the
structured provider error message when the response body had one. -/

inductive RemoteOutcome (α : Type)
  | ok (value : α)
  | fail (message : Option String)
deriving DecidableEq

/-! ## Narration service (ElevenLabs, unnamed parts 003/004)

Both variants of the service guard `generateNarration` identically: the key
(a string, falsy exactly when empty) is checked before any network request.
The transport argument records every request actually issued, so "no network
call" is the request list being empty. -/

structure TTSVoiceSettings where
  stability : ℚ
  similarity_boost : ℚ
  style : ℚ
  use_speaker_boost : Bool
deriving DecidableEq

def VOICE_SETTINGS : TTSVoiceSettings :=
  { stability := 3/4, similarity_boost := 3/4, style := 1/2, use_speaker_boost := true }

def WHISPER_SETTINGS : TTSVoiceSettings :=
  { stability := 9/10, similarity_boost := 3/5, style := 3/10, use_speaker_boost := false }

def VOICE_IDS : VoiceType → String
  | .prince => "pNInz6obpgDQGcFmaJgB"
  | .narrator => "EXAVITQu4vr4xnSDxMaL"

structure TTSRequest where
  text : String
  voiceId : String
  settings : TTSVoiceSettings
deriving DecidableEq

structure NarrationResult where
  audioUri : String
  success : Bool
  error : Option String
deriving DecidableEq

/-- `generateNarration`.  On transport success the binary audio is wrapped
into a locally referenceable URI (blob URL or cache-file path depending on
platform); the transport outcome carries that URI directly.  The second
component lists the requests issued. -/
def generateNarration (apiKey text : String) (voiceType : VoiceType) (whisperMode : Bool)
    (transport : TTSRequest → RemoteOutcome String) : NarrationResult × List TTSRequest :=
  if apiKey == "" then
    ({ audioUri := ""
       success := false
       error := some "ElevenLabs API key not configured. Please set your API key in Settings." },
     [])
  else
    let settings := if whisperMode then WHISPER_SETTINGS else VOICE_SETTINGS
    let req : TTSRequest := { text := text, voiceId := VOICE_IDS voiceType, settings := settings }
    match transport req with
    | .ok audioUri => ({ audioUri := audioUri, success := true, error := none }, [req])
    | .fail m =>
        ({ audioUri := ""
           success := false
           error := some (m.getD "Failed to generate narration. Please try again.") },
         [req])

/-! ## Narration playback (unnamed part 004)

The module keeps one mutable `currentSound` handle and an `isPlaying` flag.
A handle is identified by the audio URI it plays; `unloaded` records the
handles whose resources have been stopped and released (`stopAsync` +
`unloadAsync`). -/

structure NarrationPlayer where
  currentSound : Option String
  isPlaying : Bool
  unloaded : List String
deriving DecidableEq

def initialPlayer : NarrationPlayer :=
  { currentSound := none, isPlaying := false, unloaded := [] }

/-- `stopNarration`: stop, unload and drop the current handle, if any. -/
def stopNarration (p : NarrationPlayer) : NarrationPlayer :=
  match p.currentSound with
  | some uri =>
      { currentSound := none, isPlaying := false, unloaded := p.unloaded ++ [uri] }
  | none => p

/-- `playNarration`: stop any currently playing audio first, then create a
new sound for the URI with `shouldPlay: true` and record it as current. -/
def playNarration (audioUri : String) (p : NarrationPlayer) : NarrationPlayer :=
  let p1 := stopNarration p
  { p1 with currentSound := some audioUri, isPlaying := true }

/-- `pauseNarration`: no-op unless a handle is loaded and playing. -/
def pauseNarration (p : NarrationPlayer) : NarrationPlayer :=
  if p.currentSound.isSome && p.isPlaying then { p with isPlaying := false } else p

/-- `resumeNarration`: no-op unless a handle is loaded and paused. -/
def resumeNarration (p : NarrationPlayer) : NarrationPlayer :=
  if p.currentSound.isSome && !p.isPlaying then { p with isPlaying := true } else p

def isNarrationPlaying (p : NarrationPlayer) : Bool :=
  p.isPlaying

/-! ## Ambient music service (unnamed part 006)

The service is web-only (`HTMLAudioElement`); `fadeAmbientVolume` returns
immediately unless running on web with a live `ambientAudio` element.
Volumes are rationals standing for the JS numbers. -/

/-- `Math.min` on the rationals standing for JS numbers. -/
def minJS (a b : ℚ) : ℚ :=
  if a ≤ b then a else b

/-- `Math.max` on the rationals standing for JS numbers. -/
def maxJS (a b : ℚ) : ℚ :=
  if a ≤ b then b else a

/-- `Math.max(0, Math.min(1, x))`. -/
def clamp01 (x : ℚ) : ℚ :=
  maxJS 0 (minJS 1 x)

/-- The fade loop's fixed step count. -/
def fadeStepCount : Nat := 20

/-- The element volumes assigned by the fade loop, in order: iteration `i`
(1-based) assigns `clamp01 (start + diff * i / steps)`. -/
def fadeTrace (startVolume targetVolume : ℚ) : List ℚ :=
  (List.range fadeStepCount).map
    (fun (i : Nat) =>
      clamp01 (startVolume + (targetVolume - startVolume) * ((i : ℚ) + 1) / (fadeStepCount : ℚ)))

structure AmbientPlayer where
  isWeb : Bool
  hasAudio : Bool
  elementVolume : ℚ
  currentAmbientVolume : ℚ
deriving DecidableEq

/-- `fadeAmbientVolume(targetVolume, durationMs)`.  The duration only spaces
the steps in time and does not change the volumes visited.  Returns the
updated state and the list of element volumes assigned, one per step; after
the loop the module-level `currentAmbientVolume` is set to the target. -/
def fadeAmbientVolume (targetVolume : ℚ) (p : AmbientPlayer) : AmbientPlayer × List ℚ :=
  if !p.isWeb || !p.hasAudio then (p, [])
  else
    let trace := fadeTrace p.elementVolume targetVolume
    ({ p with
        elementVolume := trace.getLastD p.elementVolume
        currentAmbientVolume := targetVolume },
     trace)

/-! ## Character image client (src/src/services/gemini.ts) -/

structure ImageGenerationResult where
  imageUrl : String
  success : Bool
  error : Option String
deriving DecidableEq

/-- `String.prototype.includes` on the character lists. -/
def hasSub (l pat : List Char) : Bool :=
  if pat.isPrefixOf l then true
  else
    match l with
    | [] => false
    | _ :: xs => hasSub xs pat

def strIncludes (s pat : String) : Bool :=
  hasSub s.toList pat.toList

/-- `CHARACTER_PROMPTS` lookup. -/
def CHARACTER_PROMPTS : String → Option String
  | "pratima" => some "Beautiful Indian princess anime girl, long flowing black hair open and free, big expressive dark eyes with sparkles, cute modern outfit with traditional Indian jewelry accents, a tiny adorable cat companion sitting near her shoulder, soft blue-tinted dreamy background with sparkles and stars, Japanese manga art style, highly detailed anime illustration, soft shading, beautiful lighting, shoujo manga aesthetic, romantic and ethereal mood, Studio Ghibli inspired, protagonist heroine vibes"
  | "pranav" => some "Handsome Indian prince anime boy, charming smile, well-styled dark hair, warm brown eyes full of love, wearing a stylish royal outfit with gold accents, confident and gentle expression, soft pink-tinted dreamy background with sparkles and hearts, Japanese manga art style, highly detailed anime illustration, soft shading, beautiful lighting, shoujo manga aesthetic, romantic and dreamy mood, bishounen style, heroic prince protagonist"
  | "lanka" => some "Villainous fog-ogre knight anime antagonist, greenish-gray skin with sinister grin, wearing dark menacing samurai-style armor with spikes, proud overconfident evil expression, glowing red eyes, dark misty fog and shadows swirling around him, dramatic villain pose, Japanese manga art style, anime illustration, dark fantasy villain aesthetic, intimidating but comedic villain design, purple and black color scheme background"
  | "jinal" => some "Mischievous parrot witch anime villain, anthropomorphic parrot girl with wild vibrant green and red feather hair, wearing a dark witch hat with a sinister smile, scheming gossipy expression with narrowed eyes, perched near a glowing crystal ball showing dark magic, colorful but ominous magical sparkles, Japanese manga art style, anime illustration, dark magical girl villain aesthetic, cunning and dramatic villain design"
  | "pavani" => some "Ghostly weeping willow spirit anime villain, pale translucent ethereal figure with flowing dark green hair like willow branches, haunting glowing tear-drop lights floating around her, dramatically melancholic but menacing expression, eerie forest spirit aesthetic with dark undertones, Japanese manga art style, anime illustration, soft green and ghostly blue ethereal lighting, dark fantasy anime aesthetic, beautiful but sinister yokai villain"
  | "ramaya" => some "Sinister scholarly wizard anime villain, elderly figure with cunning proud expression, wearing dark elaborate academic robes covered in forbidden magical symbols, holding a glowing scroll with dark magic, surrounded by floating ancient tomes and shadows, dim candlelit library with ominous lighting, Japanese manga art style, anime illustration, dark academic villain aesthetic, wise but evil sorcerer design"
  | _ => none

/-- The style suffix appended to a custom prompt lacking style keywords. -/
def STYLE_SUFFIX : String :=
  ". Japanese manga art style, anime illustration, soft shading, beautiful lighting, dreamy romantic atmosphere, highly detailed anime character design"

/-- The in-memory `imageCache` object, as the association list of its
properties in insertion order. -/
def cacheLookup (cache : List (String × String)) (id : String) : Option String :=
  (cache.find? (fun p => p.1 == id)).map (fun p => p.2)

def cacheInsert (cache : List (String × String)) (id url : String) : List (String × String) :=
  if cache.any (fun p => p.1 == id) then
    cache.map (fun p => if p.1 == id then (id, url) else p)
  else
    cache ++ [(id, url)]

/-- Module state of the gemini service: the key variable and the cache. -/
structure GeminiClient where
  apiKey : String
  imageCache : List (String × String)
deriving DecidableEq

/-- `generateCharacterImage(characterId, forceRegenerate, customPrompt)`.
The retry loop (`tryGenerateWithRetry`, up to three attempts with backoff on
rate limits) is abstracted into one resolved transport outcome; the final
component counts the generation calls issued.  The cache check (`imageCache`
property truthy, i.e. present and non-empty) comes before the API-key check,
and both come before the prompt lookup. -/
def generateCharacterImage (client : GeminiClient) (characterId : String)
    (forceRegenerate : Bool) (customPrompt : Option String)
    (transport : String → RemoteOutcome String) :
    ImageGenerationResult × GeminiClient × Nat :=
  let cached :=
    if forceRegenerate then none
    else (cacheLookup client.imageCache characterId).filter (fun url => url != "")
  match cached with
  | some url => ({ imageUrl := url, success := true, error := none }, client, 0)
  | none =>
    if client.apiKey == "" then
      ({ imageUrl := ""
         success := false
         error := some "Gemini API key not configured. Please set your API key in Settings." },
       client, 0)
    else
      let base :=
        match customPrompt with
        | some c => if c != "" then some c else CHARACTER_PROMPTS characterId
        | none => CHARACTER_PROMPTS characterId
      let prompt :=
        match customPrompt with
        | some c =>
            if c != "" && !strIncludes c "anime" && !strIncludes c "manga" then
              some (c ++ STYLE_SUFFIX)
            else base
        | none => base
      match prompt with
      | none =>
          ({ imageUrl := ""
             success := false
             error := some ("No image prompt configured for character: " ++ characterId) },
           client, 0)
      | some p =>
          match transport p with
          | .ok url =>
              ({ imageUrl := url, success := true, error := none },
               { client with imageCache := cacheInsert client.imageCache characterId url }, 1)
          | .fail _ =>
              ({ imageUrl := ""
                 success := false
                 error := some "Image generation failed. The API may be rate limited or the model may not support image generation. Please try again in a moment." },
               client, 1)

/-! ## Story generation client (src/src/services/openai.ts)

`generateStory` parses the chat-completion response text against the
`TITLE: ...` / `STORY: ...` convention:

  `responseText.match(/TITLE:\s*(.+)/i)` and
  `responseText.match(/STORY:\s*([\s\S]+)/i)`.

The matcher below implements these two regexes directly: a leftmost
case-insensitive occurrence of the literal, then a greedy backtracking
`\s*` followed by a greedy one-or-more character class (`.` excludes line
terminators; `[\s\S]` matches everything). -/

/-- The ECMAScript `\s` class (WhiteSpace plus LineTerminator). -/
def isSpaceJS (c : Char) : Bool :=
  let n := c.toNat
  n == 0x20 || n == 0x09 || n == 0x0a || n == 0x0b || n == 0x0c || n == 0x0d ||
  n == 0xa0 || n == 0x1680 || (0x2000 ≤ n && n ≤ 0x200a) ||
  n == 0x2028 || n == 0x2029 || n == 0x202f || n == 0x205f || n == 0x3000 || n == 0xfeff

/-- The ECMAScript LineTerminator class, excluded by `.` outside dotAll. -/
def isLineTerm (c : Char) : Bool :=
  let n := c.toNat
  n == 0x0a || n == 0x0d || n == 0x2028 || n == 0x2029

def charEqCI (a b : Char) : Bool :=
  a.toLower == b.toLower

/-- Strip a case-insensitive literal from the front of the text. -/
def dropLitCI : List Char → List Char → Option (List Char)
  | [], s => some s
  | _ :: _, [] => none
  | c :: cs, x :: xs => if charEqCI x c then dropLitCI cs xs else none

/-- Match `\s*(G+)` against the text, where `G` is `[\s\S]` when `dotAll`
and `[^lineterm]` otherwise: greedy `\s*` with backtracking, then the
greedy one-or-more group.  Returns the group capture. -/
def matchTail (dotAll : Bool) : List Char → Option (List Char)
  | [] => none
  | c :: cs =>
    if isSpaceJS c then
      match matchTail dotAll cs with
      | some cap => some cap
      | none =>
          let cap := (c :: cs).takeWhile (fun x => dotAll || !isLineTerm x)
          if cap.isEmpty then none else some cap
    else
      let cap := (c :: cs).takeWhile (fun x => dotAll || !isLineTerm x)
      if cap.isEmpty then none else some cap

/-- Leftmost match of `/LIT\s*(G+)/i` in the text: try each start position
left to right; at a position where the literal matches but the tail does
not, resume the scan one character further, as the regex engine does. -/
def findMatchCI (lit : List Char) (dotAll : Bool) : List Char → Option (List Char)
  | [] =>
      match dropLitCI lit [] with
      | some rest => matchTail dotAll rest
      | none => none
  | x :: xs =>
      match dropLitCI lit (x :: xs) with
      | some rest =>
          match matchTail dotAll rest with
          | some cap => some cap
          | none => findMatchCI lit dotAll xs
      | none => findMatchCI lit dotAll xs

/-- `String.prototype.trim`: strip `\s` from both ends. -/
def trimJS (l : List Char) : List Char :=
  ((l.dropWhile isSpaceJS).reverse.dropWhile isSpaceJS).reverse

structure StoryGenerationResult where
  title : String
  content : String
  success : Bool
  error : Option String
deriving DecidableEq

/-- The capture of `responseText.match(/TITLE:\s*(.+)/i)`. -/
def titleCapture (responseText : String) : Option (List Char) :=
  findMatchCI "TITLE:".toList false responseText.toList

/-- The capture of `responseText.match(/STORY:\s*([\s\S]+)/i)`. -/
def storyCapture (responseText : String) : Option (List Char) :=
  findMatchCI "STORY:".toList true responseText.toList

/-- The parsing step of `generateStory` applied to the response text of a
successful chat-completion call (openai.ts lines 139-152). -/
def generateStoryFromResponse (responseText : String) : StoryGenerationResult :=
  let title :=
    match titleCapture responseText with
    | some cap => String.mk (trimJS cap)
    | none => "A Moonlit Tale"
  let content :=
    match storyCapture responseText with
    | some cap => String.mk (trimJS cap)
    | none => responseText
  { title := title, content := content, success := true, error := none }

/-- `generateStory`.  Prompt construction (lines 84-111) only shapes the
request; the remote call is abstracted as its resolved outcome, whose `ok`
payload is `response.data.choices[0].message.content`. -/
def generateStory (apiKey : String) (response : RemoteOutcome String) : StoryGenerationResult :=
  if apiKey == "" then
    { title := ""
      content := ""
      success := false
      error := some "OpenAI API key not configured. Please set your API key in Settings." }
  else
    match response with
    | .ok responseText => generateStoryFromResponse responseText
    | .fail m =>
        { title := ""
          content := ""
          success := false
          error := some (m.getD "Failed to generate story. Please try again.") }

/-! ## Sample data for concrete evaluations -/

def sampleStory : Story :=
  { id := "story_1700000000000_abc123xyz"
    title := "A Starlit Evening"
    content := "Once upon a time, under a silver moon."
    mode := .romance
    createdAt := "2024-01-01T00:00:00.000Z"
    audioUrl := none
    isFavorite := false
    settings :=
      { mode := .romance
        length := .medium
        toneSoftness := 50
        lullabyEnding := true
        customTheme := none } }

def sampleKeys : APIKeys :=
  { openai := "sk-test", elevenlabs := "el-test", gemini := "gm-test" }

def ambientSample : AmbientPlayer :=
  { isWeb := true, hasAudio := true, elementVolume := 3/10, currentAmbientVolume := 3/10 }

def failingImageTransport : String → RemoteOutcome String :=
  fun _ => .fail none

/-! ## Helper lemmas on `updateFirst` and `find?` -/

theorem updateFirst_map {α β : Type} (g : α → β) (p : α → Bool) (f : α → α)
    (hf : ∀ a, g (f a) = g a) : ∀ l : List α, (updateFirst p f l).map g = l.map g
  | [] => rfl
  | x :: xs => by
      cases hp : p x with
      | true => simp [updateFirst, hp, hf]
      | false => simp [updateFirst, hp, updateFirst_map g p f hf xs]

theorem find?_decomp {α : Type} (p : α → Bool) :
    ∀ {l : List α} {a : α}, l.find? p = some a →
      ∃ l₁ l₂, l = l₁ ++ a :: l₂ ∧ (∀ x ∈ l₁, p x = false) ∧ p a = true
  | [], a, h => by simp [List.find?] at h
  | x :: xs, a, h => by
      cases hp : p x with
      | true =>
          rw [List.find?_cons_of_pos _ hp] at h
          exact ⟨[], xs, by simp [(Option.some_inj.mp h).symm], by simp, by rwa [Option.some_inj.mp h] at hp⟩
      | false =>
          rw [List.find?_cons_of_neg _ (by simp [hp])] at h
          obtain ⟨l₁, l₂, hdec, hl₁, hpa⟩ := find?_decomp p h
          exact ⟨x :: l₁, l₂, by simp [hdec], by
            intro y hy
            rcases List.mem_cons.mp hy with hy | hy
            · rwa [hy]
            · exact hl₁ y hy, hpa⟩

theorem updateFirst_append {α : Type} (p : α → Bool) (f : α → α) :
    ∀ (l₁ : List α) (a : α) (l₂ : List α), (∀ x ∈ l₁, p x = false) → p a = true →
      updateFirst p f (l₁ ++ a :: l₂) = l₁ ++ f a :: l₂
  | [], a, l₂, _, ha => by simp [updateFirst, ha]
  | x :: l₁, a, l₂, h, ha => by
      have hx : p x = false := h x (by simp)
      have hrec := updateFirst_append p f l₁ a l₂ (fun y hy => h y (by simp [hy])) ha
      simp [updateFirst, hx, hrec]

theorem find?_append_first {α : Type} (p : α → Bool) :
    ∀ (l₁ : List α) (a : α) (l₂ : List α), (∀ x ∈ l₁, p x = false) → p a = true →
      (l₁ ++ a :: l₂).find? p = some a
  | [], a, l₂, _, ha => by simp [List.find?_cons_of_pos _ ha]
  | x :: l₁, a, l₂, h, ha => by
      have hx : p x = false := h x (by simp)
      have hrec := find?_append_first p l₁ a l₂ (fun y hy => h y (by simp [hy])) ha
      simp only [List.cons_append]
      rw [List.find?_cons_of_neg _ (by simp [hx])]
      exact hrec

/-! ## Story-id bookkeeping lemmas -/

theorem storyIds_saveStory (story : Story) (st : Store) :
    storyIds (saveStory story st) = story.id :: storyIds st := rfl

theorem storyIds_updateStory (id : String) (u : StoryUpdate) (st : Store)
    (hu : u.id = none) : storyIds (updateStory id u st) = storyIds st := by
  unfold updateStory
  cases h : (getStories st).any (fun s => s.id == id) with
  | false => simp [h]
  | true =>
      simp only [h, if_true]
      simp only [storyIds, getStories, Option.getD_some]
      exact updateFirst_map (fun s : Story => s.id) (fun s => s.id == id)
        (fun s => applyStoryUpdate s u) (fun a => by simp [applyStoryUpdate, hu]) _

theorem storyIds_toggleFavorite (id : String) (st : Store) :
    storyIds (toggleFavorite id st).2 = storyIds st := by
  unfold toggleFavorite
  cases h : (getStories st).find? (fun s => s.id == id) with
  | none => simp [h]
  | some story =>
      simp only [h]
      simp only [storyIds, getStories, Option.getD_some]
      exact updateFirst_map (fun s : Story => s.id) (fun s => s.id == id)
        (fun s => { s with isFavorite := !s.isFavorite }) (fun a => rfl) _

theorem storyIds_deleteStory_nodup (id : String) (st : Store)
    (h : (storyIds st).Nodup) : (storyIds (deleteStory id st)).Nodup := by
  have hsub : ((getStories st).filter (fun s => !(s.id == id))).Sublist (getStories st) :=
    List.filter_sublist _
  have hmap := hsub.map (fun s : Story => s.id)
  exact h.sublist hmap

/-! ## Claim theorems -/

/-- C1 (counterexample): `clearAllData` does not remove the API-keys record,
so after saving non-empty keys and clearing, `getAPIKeys` does not return
all-empty-string keys — the claim that all four records are removed fails. -/
theorem clearAllData_counterexample :
    ¬ getAPIKeys (clearAllData (saveAPIKeys sampleKeys emptyStore)) =
        { openai := "", elevenlabs := "", gemini := "" } := by
  decide

/-- C1 (amended): `clearAllData` removes the stories, favorites, settings,
last-mode and custom-characters records unconditionally, so those reads
return their empty/default values afterwards; the API-keys record is left in
place, so `getAPIKeys` still returns whatever was stored before the clear. -/
theorem clearAllData_spec (st : Store) :
    getStories (clearAllData st) = [] ∧
    getCustomCharacters (clearAllData st) = [] ∧
    getSettings (clearAllData st) = DEFAULT_SETTINGS ∧
    getLastMode (clearAllData st) = none ∧
    (clearAllData st).favorites = none ∧
    getAPIKeys (clearAllData st) = getAPIKeys st :=
  ⟨rfl, rfl, rfl, rfl, rfl, rfl⟩

/-- C5: `getSettings` on the empty store is exactly the hardcoded default
record, and after `saveSettings` with only `narrationVolume := 0.5` it is the
default record with only `narrationVolume` changed to `0.5`. -/
theorem getSettings_merge_default :
    getSettings emptyStore = DEFAULT_SETTINGS ∧
    getSettings (saveSettings { narrationVolume := some (1/2) } emptyStore) =
      { DEFAULT_SETTINGS with narrationVolume := 1/2 } := by
  constructor
  · rfl
  · rfl

/-- C7: with the ElevenLabs key unset (the empty string, the only falsy
string), `generateNarration` returns a failure with empty audio URI and a
non-empty error message, and issues no network request, for every input. -/
theorem generateNarration_missing_key (text : String) (voiceType : VoiceType)
    (whisperMode : Bool) (transport : TTSRequest → RemoteOutcome String) :
    (generateNarration "" text voiceType whisperMode transport).1.success = false ∧
    (generateNarration "" text voiceType whisperMode transport).1.audioUri = "" ∧
    (∃ msg, (generateNarration "" text voiceType whisperMode transport).1.error = some msg ∧
      msg ≠ "") ∧
    (generateNarration "" text voiceType whisperMode transport).2 = [] := by
  refine ⟨rfl, rfl, ⟨_, rfl, by decide⟩, rfl⟩

/-- C9: starting `playNarration handleB` after `playNarration handleA` with
no intervening stop leaves handleB as the single current session, reports
playing, and has released handleA's handle (it was stopped and unloaded). -/
theorem playNarration_exclusive (p : NarrationPlayer) (handleA handleB : String) :
    (playNarration handleB (playNarration handleA p)).currentSound = some handleB ∧
    isNarrationPlaying (playNarration handleB (playNarration handleA p)) = true ∧
    handleA ∈ (playNarration handleB (playNarration handleA p)).unloaded := by
  refine ⟨rfl, rfl, ?_⟩
  simp [playNarration, stopNarration]

/-- C2 (counterexample): the story operations alone do not keep ids pairwise
distinct — `saveStory` prepends unconditionally, so saving the same story
twice yields a reachable state with a duplicated id. -/
theorem storyIds_nodup_counterexample :
    ¬ (storyIds (applyStoryOps [.save sampleStory, .save sampleStory] emptyStore)).Nodup := by
  decide

/-- C2 (amended): along any trace of story operations in which every saved
story carries an id not already present at the time of the save and no
update rewrites the id field, pairwise distinctness of the stored ids is
preserved; `deleteStory` and `toggleFavorite` preserve it unconditionally. -/
theorem storyIds_nodup_of_safe (ops : List StoryOp) (st : Store)
    (hnodup : (storyIds st).Nodup) (hsafe : safeStoryOps ops st = true) :
    (storyIds (applyStoryOps ops st)).Nodup := by
  induction ops generalizing st with
  | nil => exact hnodup
  | cons op ops ih =>
      have hchain : applyStoryOps (op :: ops) st = applyStoryOps ops (applyStoryOp op st) := rfl
      cases op with
      | save story =>
          simp only [safeStoryOps, Bool.and_eq_true, Bool.not_eq_true'] at hsafe
          obtain ⟨hop, hrest⟩ := hsafe
          have hmem : story.id ∉ storyIds st := by
            simpa using hop
          have hstep : (storyIds (applyStoryOp (.save story) st)).Nodup := by
            rw [applyStoryOp, storyIds_saveStory]
            exact List.nodup_cons.mpr ⟨hmem, hnodup⟩
          rw [hchain]
          exact ih (applyStoryOp (.save story) st) hstep hrest
      | update id u =>
          simp only [safeStoryOps, Bool.and_eq_true] at hsafe
          obtain ⟨hop, hrest⟩ := hsafe
          have hu : u.id = none := by simpa using hop
          have hstep : (storyIds (applyStoryOp (.update id u) st)).Nodup := by
            rw [applyStoryOp, storyIds_updateStory id u st hu]
            exact hnodup
          rw [hchain]
          exact ih (applyStoryOp (.update id u) st) hstep hrest
      | delete id =>
          simp only [safeStoryOps, Bool.and_eq_true] at hsafe
          obtain ⟨_, hrest⟩ := hsafe
          rw [hchain]
          exact ih (applyStoryOp (.delete id) st) (storyIds_deleteStory_nodup id st hnodup) hrest
      | toggle id =>
          simp only [safeStoryOps, Bool.and_eq_true] at hsafe
          obtain ⟨_, hrest⟩ := hsafe
          have hstep : (storyIds (applyStoryOp (.toggle id) st)).Nodup := by
            rw [applyStoryOp, storyIds_toggleFavorite]
            exact hnodup
          rw [hchain]
          exact ih (applyStoryOp (.toggle id) st) hstep hrest

/-- C2 (witness): a concrete safe trace from the empty store keeps ids
pairwise distinct. -/
theorem storyIds_nodup_of_safe_witness :
    (storyIds (applyStoryOps
      [.save sampleStory, .toggle "story_1700000000000_abc123xyz", .delete "missing_id"]
      emptyStore)).Nodup :=
  storyIds_nodup_of_safe
    [.save sampleStory, .toggle "story_1700000000000_abc123xyz", .delete "missing_id"]
    emptyStore (by decide) (by decide)

/-- C3 (helper): folding a sequence of saves over any store prepends the
saved stories in reverse order. -/
theorem getStories_applyStoryOps_saves (ss : List Story) (st : Store) :
    getStories (applyStoryOps (ss.map .save) st) = ss.reverse ++ getStories st := by
  induction ss generalizing st with
  | nil => rfl
  | cons s ss ih =>
      have hstep : applyStoryOps ((s :: ss).map .save) st =
          applyStoryOps (ss.map .save) (saveStory s st) := rfl
      rw [hstep, ih (saveStory s st)]
      simp [saveStory, getStories]

/-- C3: for any sequence of `saveStory` calls from the empty store,
`listStories` returns the saved stories most-recently-saved first (the
reverse of the save order), and each `saveStory` inserts at the head of the
persisted list. -/
theorem saveStory_newest_first (ss : List Story) (story : Story) (st : Store) :
    getStories (applyStoryOps (ss.map .save) emptyStore) = ss.reverse ∧
    getStories (saveStory story st) = story :: getStories st := by
  constructor
  · rw [getStories_applyStoryOps_saves]
    simp [emptyStore, getStories]
  · rfl

/-- Computation of `toggleFavorite` when the id is present. -/
theorem toggleFavorite_eq_of_find (st : Store) (id : String) (story : Story)
    (hfind : (getStories st).find? (fun s => s.id == id) = some story) :
    toggleFavorite id st =
      (!story.isFavorite,
       { st with stories := some (updateFirst (fun s => s.id == id)
          (fun s => { s with isFavorite := !s.isFavorite }) (getStories st)) }) := by
  simp only [toggleFavorite]
  rw [hfind]

/-- Computation of `toggleFavorite` when the id is absent. -/
theorem toggleFavorite_eq_of_none (st : Store) (id : String)
    (hfind : (getStories st).find? (fun s => s.id == id) = none) :
    toggleFavorite id st = (false, st) := by
  simp only [toggleFavorite]
  rw [hfind]

/-- C4: when a story with the given id is present, `toggleFavorite` persists
the list with that story's favorite flag negated and returns the negated
value; a second call returns the original value and restores the original
store exactly, and a third call flips again.  When the id is absent it
returns `false` and leaves the store unchanged. -/
theorem toggleFavorite_spec (st : Store) (id : String) :
    (∀ story, (getStories st).find? (fun s => s.id == id) = some story →
      (toggleFavorite id st).1 = !story.isFavorite ∧
      (∃ l₁ l₂, getStories st = l₁ ++ story :: l₂ ∧
        getStories (toggleFavorite id st).2 =
          l₁ ++ { story with isFavorite := !story.isFavorite } :: l₂) ∧
      (toggleFavorite id (toggleFavorite id st).2).1 = story.isFavorite ∧
      (toggleFavorite id (toggleFavorite id st).2).2 = st ∧
      (toggleFavorite id (toggleFavorite id (toggleFavorite id st).2).2).1 = !story.isFavorite) ∧
    ((getStories st).find? (fun s => s.id == id) = none →
      toggleFavorite id st = (false, st)) := by
  constructor
  · intro story hfind
    obtain ⟨l₁, l₂, hdec, hl₁, hpa⟩ := find?_decomp (fun s : Story => s.id == id) hfind
    have h1 := toggleFavorite_eq_of_find st id story hfind
    have hupd1 : updateFirst (fun s => s.id == id)
        (fun s => { s with isFavorite := !s.isFavorite }) (getStories st) =
        l₁ ++ { story with isFavorite := !story.isFavorite } :: l₂ := by
      rw [hdec]
      exact updateFirst_append _ _ l₁ story l₂ hl₁ hpa
    have hg1 : getStories (toggleFavorite id st).2 =
        l₁ ++ { story with isFavorite := !story.isFavorite } :: l₂ := by
      rw [h1]
      exact hupd1
    have hpflip : (fun s : Story => s.id == id)
        ({ story with isFavorite := !story.isFavorite }) = true := hpa
    have hfind2 : (getStories (toggleFavorite id st).2).find? (fun s => s.id == id) =
        some { story with isFavorite := !story.isFavorite } := by
      rw [hg1]
      exact find?_append_first _ l₁ _ l₂ hl₁ hpflip
    have hsome : st.stories = some (getStories st) := by
      cases hst : st.stories with
      | none => simp [getStories, hst] at hfind
      | some l => simp [getStories, hst]
    have hupd2 : updateFirst (fun s => s.id == id)
        (fun s => { s with isFavorite := !s.isFavorite })
        (getStories (toggleFavorite id st).2) = getStories st := by
      rw [hg1, updateFirst_append _ _ l₁ _ l₂ hl₁ hpflip, hdec]
      simp
    have h2 := toggleFavorite_eq_of_find (toggleFavorite id st).2 id _ hfind2
    have hb2 : (toggleFavorite id (toggleFavorite id st).2).1 = story.isFavorite := by
      rw [h2]
      simp
    have hst2 : (toggleFavorite id (toggleFavorite id st).2).2 = st := by
      rw [h2, hupd2, h1]
      show ({ st with stories := some (getStories st) } : Store) = st
      rw [← hsome]
    have hb3 : (toggleFavorite id (toggleFavorite id (toggleFavorite id st).2).2).1 =
        !story.isFavorite := by
      rw [hst2, h1]
    exact ⟨by rw [h1], ⟨l₁, l₂, hdec, hg1⟩, hb2, hst2, hb3⟩
  · exact fun hnone => toggleFavorite_eq_of_none st id hnone

/-- C4 (witness): on a concrete one-story store, toggling the present id
returns the flipped flag, and toggling an absent id is a returning no-op. -/
theorem toggleFavorite_spec_witness :
    (toggleFavorite sampleStory.id (saveStory sampleStory emptyStore)).1 =
      !sampleStory.isFavorite ∧
    toggleFavorite "missing_id" (saveStory sampleStory emptyStore) =
      (false, saveStory sampleStory emptyStore) :=
  ⟨((toggleFavorite_spec (saveStory sampleStory emptyStore) sampleStory.id).1
      sampleStory (by decide)).1,
   (toggleFavorite_spec (saveStory sampleStory emptyStore) "missing_id").2 (by decide)⟩

/-- C6: on the mocked response following the TITLE:/STORY: convention the
parsed result is the trimmed title and story body with success, and on any
response where neither pattern matches, the fallback title is substituted
and the whole raw response becomes the content. -/
theorem generateStory_parse_spec :
    generateStory "sk-test" (.ok "TITLE: Starlit Hush\nSTORY:\nOnce upon a...\n\nGoodnight.") =
      { title := "Starlit Hush", content := "Once upon a...\n\nGoodnight.",
        success := true, error := none } ∧
    ∀ responseText : String,
      titleCapture responseText = none → storyCapture responseText = none →
      generateStory "sk-test" (.ok responseText) =
        { title := "A Moonlit Tale", content := responseText,
          success := true, error := none } := by
  constructor
  · decide
  · intro r ht hs
    show generateStoryFromResponse r = _
    simp only [generateStoryFromResponse, ht, hs]

/-- C6 (witness): a response without the convention falls back to the fixed
title and the raw response as content. -/
theorem generateStory_parse_spec_witness :
    generateStory "sk-test" (.ok "Hello world, a tale with no markers.") =
      { title := "A Moonlit Tale", content := "Hello world, a tale with no markers.",
        success := true, error := none } :=
  generateStory_parse_spec.2 "Hello world, a tale with no markers." (by decide) (by decide)

/-- C8: with a live web audio element, the fade issues exactly 20 discrete
linear volume steps whatever the duration; a fade from 0.3 to 0.1 is
strictly decreasing across all steps and lands exactly on 0.1, which also
becomes the recorded ambient volume. -/
theorem fadeAmbientVolume_spec (p : AmbientPlayer) (targetVolume : ℚ)
    (hweb : p.isWeb = true) (haudio : p.hasAudio = true) :
    (fadeAmbientVolume targetVolume p).2.length = 20 ∧
    (p.elementVolume = 3/10 → targetVolume = 1/10 →
      List.Chain' (fun a b : ℚ => a > b)
        (p.elementVolume :: (fadeAmbientVolume targetVolume p).2) ∧
      (fadeAmbientVolume targetVolume p).1.elementVolume = 1/10 ∧
      (fadeAmbientVolume targetVolume p).1.currentAmbientVolume = 1/10) := by
  have hguard : (!p.isWeb || !p.hasAudio) = false := by
    rw [hweb, haudio]
    rfl
  have heq : fadeAmbientVolume targetVolume p =
      ({ p with
          elementVolume := (fadeTrace p.elementVolume targetVolume).getLastD p.elementVolume
          currentAmbientVolume := targetVolume },
       fadeTrace p.elementVolume targetVolume) := by
    simp only [fadeAmbientVolume, hguard, Bool.false_eq_true, if_false]
  constructor
  · rw [heq]
    show (fadeTrace p.elementVolume targetVolume).length = 20
    rw [fadeTrace, List.length_map, List.length_range]
    rfl
  · intro hstart htarget
    refine ⟨?_, ?_, ?_⟩
    · rw [heq, hstart, htarget]
      show List.Chain' (fun a b : ℚ => a > b) ((3/10 : ℚ) :: fadeTrace (3/10) (1/10))
      norm_num [fadeTrace, fadeStepCount, List.range_succ, clamp01, minJS, maxJS,
        List.chain'_cons]
    · rw [heq, hstart, htarget]
      show (fadeTrace (3/10 : ℚ) (1/10)).getLastD (3/10) = 1/10
      norm_num [fadeTrace, fadeStepCount, List.range_succ, clamp01, minJS, maxJS]
    · rw [heq, htarget]

/-- C8 (witness): the concrete 0.3-to-0.1 fade on a live player has 20
steps and strictly decreasing volumes. -/
theorem fadeAmbientVolume_spec_witness :
    (fadeAmbientVolume (1/10) ambientSample).2.length = 20 ∧
    List.Chain' (fun a b : ℚ => a > b)
      (ambientSample.elementVolume :: (fadeAmbientVolume (1/10) ambientSample).2) :=
  ⟨(fadeAmbientVolume_spec ambientSample (1/10) rfl rfl).1,
   ((fadeAmbientVolume_spec ambientSample (1/10) rfl rfl).2 rfl rfl).1⟩

/-- C10: when an image for the character id is cached (a non-empty cached
URL) and regeneration is not forced, `generateCharacterImage` returns the
cached value as a success, issues no network call, and leaves the client
unchanged — whatever the API key, including the empty string. -/
theorem generateCharacterImage_cached (apiKey : String) (cache : List (String × String))
    (characterId url : String) (customPrompt : Option String)
    (transport : String → RemoteOutcome String)
    (hcache : cacheLookup cache characterId = some url) (hne : url ≠ "") :
    generateCharacterImage { apiKey := apiKey, imageCache := cache } characterId false
      customPrompt transport =
      ({ imageUrl := url, success := true, error := none },
       { apiKey := apiKey, imageCache := cache }, 0) := by
  have hfilter : (cacheLookup cache characterId).filter (fun u => u != "") = some url := by
    rw [hcache]
    simp [Option.filter, hne]
  simp only [generateCharacterImage, Bool.false_eq_true, if_false]
  rw [hfilter]

/-- C10 (witness): with the key cleared to the empty string and a cached
image for `pratima`, the cached URL is returned with no generation call. -/
theorem generateCharacterImage_cached_witness :
    generateCharacterImage
      { apiKey := "", imageCache := [("pratima", "data:image/png;base64,AAAA")] }
      "pratima" false none failingImageTransport =
      ({ imageUrl := "data:image/png;base64,AAAA", success := true, error := none },
       { apiKey := "", imageCache := [("pratima", "data:image/png;base64,AAAA")] }, 0) :=
  generateCharacterImage_cached "" [("pratima", "data:image/png;base64,AAAA")]
    "pratima" "data:image/png;base64,AAAA" none failingImageTransport (by decide) (by decide)

end Moonlit
